import Mathlib

/-!
Shallow embedding of `src/planet_simulation.py` (solar_system_motion).

Python floats are modelled as real numbers, Python ints as `Int`
(list lengths as `Nat`), Python lists as Lean `List`.  Methods that
mutate `self` become functions returning the updated record; the other
argument of `add_gravitational_force` is only read by the source, so the
embedding returns only the updated receiver.  Python's `int()` conversion
truncates toward zero and `//` is floor division; both are modelled
explicitly below.
-/

namespace SolarSim

/-- `SimulationState` enum from the source: RUNNING and PAUSED. -/
inductive SimulationState where
  | RUNNING
  | PAUSED
deriving DecidableEq, Repr

/-- `SimulationConfig` dataclass, with the source's default values. -/
structure SimulationConfig where
  WIDTH : ℤ := 800
  HEIGHT : ℤ := 600
  FPS : ℤ := 60
  G : ℝ := 6.67430e-11
  SCALE : ℝ := 6e-11
  ZOOM_SCALE : ℝ := 1e-9
  DT : ℝ := 86400
  TRAIL_LENGTH : ℕ := 200
  TRAIL_COLOR : ℤ × ℤ × ℤ := (50, 50, 50)
  BACKGROUND_COLOR : ℤ × ℤ × ℤ := (0, 0, 0)

/-- `CelestialBody.__init__`: physical state, visual attributes, the trail
of projected screen points, and the per-tick force accumulator. -/
structure CelestialBody where
  x : ℝ
  y : ℝ
  vx : ℝ
  vy : ℝ
  mass : ℝ
  radius : ℤ
  color : ℤ × ℤ × ℤ
  name : String
  trail : List (ℤ × ℤ) := []
  force_x : ℝ := 0
  force_y : ℝ := 0

/-- Python's `int()` applied to a float: truncation toward zero. -/
noncomputable def pyint (r : ℝ) : ℤ := if 0 ≤ r then ⌊r⌋ else ⌈r⌉

/-- `CelestialBody.reset_forces`. -/
def CelestialBody.reset_forces (b : CelestialBody) : CelestialBody :=
  { b with force_x := 0, force_y := 0 }

/-- `CelestialBody.add_gravitational_force(other, G)`: adds the force
exerted by `other` to the receiver's accumulator; if the squared distance
is not positive the body is returned unchanged (the guard in the source). -/
noncomputable def CelestialBody.add_gravitational_force
    (self other : CelestialBody) (G : ℝ) : CelestialBody :=
  let dx := other.x - self.x
  let dy := other.y - self.y
  let distance_squared := dx * dx + dy * dy
  if distance_squared > 0 then
    let distance := Real.sqrt distance_squared
    let force_magnitude := G * self.mass * other.mass / distance_squared
    let force_x := force_magnitude * dx / distance
    let force_y := force_magnitude * dy / distance
    { self with force_x := self.force_x + force_x,
                force_y := self.force_y + force_y }
  else
    self

/-- `CelestialBody.update_position(dt)`: semi-implicit Euler step. -/
noncomputable def CelestialBody.update_position
    (b : CelestialBody) (dt : ℝ) : CelestialBody :=
  let ax := b.force_x / b.mass
  let ay := b.force_y / b.mass
  let vx := b.vx + ax * dt
  let vy := b.vy + ay * dt
  { b with vx := vx, vy := vy, x := b.x + vx * dt, y := b.y + vy * dt }

/-- The screen projection computed inline in `CelestialBody.update_trail`
(and again in `draw`): `int(pos * scale + dim // 2)` per axis. -/
noncomputable def CelestialBody.projectToScreen
    (b : CelestialBody) (config : SimulationConfig) (zoomed : Bool) : ℤ × ℤ :=
  let current_scale := if zoomed then config.ZOOM_SCALE else config.SCALE
  (pyint (b.x * current_scale + ((config.WIDTH.fdiv 2 : ℤ) : ℝ)),
   pyint (b.y * current_scale + ((config.HEIGHT.fdiv 2 : ℤ) : ℝ)))

/-- Appending a point to a trail with the source's bound:
`trail.append(p); if len(trail) > TRAIL_LENGTH: trail.pop(0)`. -/
def pushTrailPoint (trailLength : ℕ) (trail : List (ℤ × ℤ))
    (point : ℤ × ℤ) : List (ℤ × ℤ) :=
  let t := trail ++ [point]
  if trailLength < t.length then t.drop 1 else t

/-- `CelestialBody.update_trail(config, zoomed)`. -/
noncomputable def CelestialBody.update_trail
    (b : CelestialBody) (config : SimulationConfig) (zoomed : Bool) : CelestialBody :=
  let point := b.projectToScreen config zoomed
  { b with trail := pushTrailPoint config.TRAIL_LENGTH b.trail point }

/-- `CelestialBody.clear_trail`. -/
def CelestialBody.clear_trail (b : CelestialBody) : CelestialBody :=
  { b with trail := [] }

/-- The `planet_data` table of `_create_solar_system`:
(distance_from_sun, orbital_velocity, mass, radius, color, name). -/
noncomputable def planet_data :
    List (ℝ × ℝ × ℝ × ℤ × (ℤ × ℤ × ℤ) × String) :=
  [(0, 0, 1.989e30, 8, (255, 255, 0), "Sun"),
   (5.79e10, 47360, 3.301e23, 2, (169, 169, 169), "Mercury"),
   (1.082e11, 35020, 4.867e24, 3, (255, 165, 0), "Venus"),
   (1.496e11, 29780, 5.972e24, 4, (0, 100, 255), "Earth"),
   (2.279e11, 24077, 6.39e23, 3, (255, 100, 0), "Mars"),
   (7.786e11, 13070, 1.898e27, 6, (200, 150, 100), "Jupiter"),
   (1.432e12, 9680, 5.683e26, 5, (250, 200, 100), "Saturn"),
   (2.867e12, 6810, 8.681e25, 4, (100, 200, 255), "Uranus"),
   (4.515e12, 5430, 1.024e26, 4, (0, 0, 255), "Neptune"),
   (5.906e12, 4670, 1.309e22, 2, (150, 100, 50), "Pluto")]

/-- The body list built by `_create_solar_system`: each row becomes a
`CelestialBody` with `x := distance, y := 0, vx := 0, vy := velocity`,
empty trail and zero accumulated force. -/
noncomputable def solarSystemBodies : List CelestialBody :=
  planet_data.map fun row =>
    { x := row.1, y := 0, vx := 0, vy := row.2.1, mass := row.2.2.1,
      radius := row.2.2.2.1, color := row.2.2.2.2.1, name := row.2.2.2.2.2 }

/-- `PlanetSimulation` state (the pygame screen/clock are external). -/
structure PlanetSimulation where
  config : SimulationConfig
  bodies : List CelestialBody
  zoomed : Bool
  state : SimulationState

/-- `PlanetSimulation.__init__(config)`: stores the configuration, starts
zoomed-out and RUNNING, and fills `bodies` via `_create_solar_system`.
The source performs no validation of the configuration. -/
noncomputable def initSimulation (config : SimulationConfig) : PlanetSimulation :=
  { config := config, bodies := solarSystemBodies,
    zoomed := false, state := SimulationState.RUNNING }

/-- `PlanetSimulation.clear_trails`. -/
def PlanetSimulation.clear_trails (sim : PlanetSimulation) : PlanetSimulation :=
  { sim with bodies := sim.bodies.map CelestialBody.clear_trail }

/-- `PlanetSimulation.toggle_zoom`: flips the flag, then clears trails. -/
def PlanetSimulation.toggle_zoom (sim : PlanetSimulation) : PlanetSimulation :=
  PlanetSimulation.clear_trails { sim with zoomed := !sim.zoomed }

/-- `PlanetSimulation.toggle_pause`. -/
def PlanetSimulation.toggle_pause (sim : PlanetSimulation) : PlanetSimulation :=
  { sim with state := if sim.state = SimulationState.RUNNING
      then SimulationState.PAUSED else SimulationState.RUNNING }

/-- `PlanetSimulation.reset_simulation`: clears the body list, rebuilds it
from the catalog, clears the zoom flag, returns to RUNNING. -/
noncomputable def PlanetSimulation.reset_simulation
    (sim : PlanetSimulation) : PlanetSimulation :=
  { sim with bodies := solarSystemBodies, zoomed := false,
             state := SimulationState.RUNNING }

/-- The body of the inner pairwise loop of `update_physics`:
`body1.add_gravitational_force(body2, G); body2.add_gravitational_force(body1, G)`,
acting on the list slots `i` and `j` (the second call sees the first
call's update of `body1`, exactly as the in-place Python code does). -/
noncomputable def forcePair (G : ℝ) (bodies : List CelestialBody)
    (i j : ℕ) : List CelestialBody :=
  match bodies.get? i, bodies.get? j with
  | some body1, some body2 =>
    let body1u := body1.add_gravitational_force body2 G
    let body2u := body2.add_gravitational_force body1u G
    (bodies.set i body1u).set j body2u
  | _, _ => bodies

/-- The double loop of `update_physics`:
`for i, body1 in enumerate(bodies): for j, body2 in enumerate(bodies[i+1:], i+1)`. -/
noncomputable def accumulate_forces (G : ℝ)
    (bodies : List CelestialBody) : List CelestialBody :=
  (List.range bodies.length).foldl
    (fun acc i =>
      (List.range' (i + 1) (bodies.length - (i + 1))).foldl
        (fun acc2 j => forcePair G acc2 i j) acc)
    bodies

/-- `PlanetSimulation.update_physics`: early return while paused, else
reset forces, accumulate pairwise gravity, then integrate and update the
trail of every body. -/
noncomputable def PlanetSimulation.update_physics
    (sim : PlanetSimulation) : PlanetSimulation :=
  if sim.state = SimulationState.PAUSED then sim
  else
    let bodies1 := sim.bodies.map CelestialBody.reset_forces
    let bodies2 := accumulate_forces sim.config.G bodies1
    let bodies3 := bodies2.map fun b =>
      (b.update_position sim.config.DT).update_trail sim.config sim.zoomed
    { sim with bodies := bodies3 }

/-! ## Theorems -/

/-- Claim C1: for every pair of bodies with identical positions (distance
squared exactly zero), `add_gravitational_force` leaves the accumulated
force unchanged and raises no error: the body is returned entirely
unchanged, so the division by the distance is never performed. -/
theorem C1_coincident_skip (self other : CelestialBody) (G : ℝ)
    (hx : self.x = other.x) (hy : self.y = other.y) :
    self.add_gravitational_force other G = self := by
  simp [CelestialBody.add_gravitational_force, hx, hy]

/-- First coincident witness body. -/
noncomputable def c1A : CelestialBody :=
  { x := 3, y := 4, vx := 1, vy := 2, mass := 5, radius := 1,
    color := (1, 2, 3), name := "A" }

/-- Second coincident witness body. -/
noncomputable def c1B : CelestialBody :=
  { x := 3, y := 4, vx := 0, vy := 0, mass := 7, radius := 2,
    color := (4, 5, 6), name := "B" }

/-- Witness for C1 at two concrete coincident bodies. -/
theorem C1_coincident_skip_witness :
    c1A.x = c1B.x ∧ c1A.y = c1B.y ∧
    c1A.add_gravitational_force c1B 1 = c1A :=
  ⟨rfl, rfl, C1_coincident_skip c1A c1B 1 rfl rfl⟩

/-- Claim C4: while the state is PAUSED, any number of consecutive
`update_physics` calls leaves the whole simulation state (all bodies with
their positions, velocities, forces and trails, the zoom flag, the state)
unchanged. -/
theorem C4_pause_noop (sim : PlanetSimulation)
    (h : sim.state = SimulationState.PAUSED) (n : ℕ) :
    PlanetSimulation.update_physics^[n] sim = sim := by
  have h1 : sim.update_physics = sim := by
    unfold PlanetSimulation.update_physics
    rw [if_pos h]
  exact Function.iterate_fixed h1 n

/-- A concrete paused simulation. -/
noncomputable def pausedSim : PlanetSimulation :=
  { config := {}, bodies := solarSystemBodies, zoomed := false,
    state := SimulationState.PAUSED }

/-- Witness for C4: five ticks of a concrete paused simulation. -/
theorem C4_pause_noop_witness :
    pausedSim.state = SimulationState.PAUSED ∧
    PlanetSimulation.update_physics^[5] pausedSim = pausedSim :=
  ⟨rfl, C4_pause_noop pausedSim rfl 5⟩

/-- Claim C5: after `reset_simulation` from any reachable state, the body
collection equals the fixed catalog exactly (position, velocity, mass,
radius, color, name bit-for-bit), every trail is empty, the zoom flag is
cleared and the state is RUNNING. -/
theorem C5_reset_restores_catalog (sim : PlanetSimulation) :
    (sim.reset_simulation).bodies = solarSystemBodies ∧
    (sim.reset_simulation).zoomed = false ∧
    (sim.reset_simulation).state = SimulationState.RUNNING ∧
    (sim.reset_simulation).config = sim.config ∧
    (solarSystemBodies.all fun b => b.trail.isEmpty) = true ∧
    (solarSystemBodies.map fun b =>
        (b.x, b.y, b.vx, b.vy, b.mass, b.radius, b.color, b.name)) =
      [(0, 0, 0, 0, 1.989e30, 8, (255, 255, 0), "Sun"),
       (5.79e10, 0, 0, 47360, 3.301e23, 2, (169, 169, 169), "Mercury"),
       (1.082e11, 0, 0, 35020, 4.867e24, 3, (255, 165, 0), "Venus"),
       (1.496e11, 0, 0, 29780, 5.972e24, 4, (0, 100, 255), "Earth"),
       (2.279e11, 0, 0, 24077, 6.39e23, 3, (255, 100, 0), "Mars"),
       (7.786e11, 0, 0, 13070, 1.898e27, 6, (200, 150, 100), "Jupiter"),
       (1.432e12, 0, 0, 9680, 5.683e26, 5, (250, 200, 100), "Saturn"),
       (2.867e12, 0, 0, 6810, 8.681e25, 4, (100, 200, 255), "Uranus"),
       (4.515e12, 0, 0, 5430, 1.024e26, 4, (0, 0, 255), "Neptune"),
       (5.906e12, 0, 0, 4670, 1.309e22, 2, (150, 100, 50), "Pluto")] := by
  exact ⟨rfl, rfl, rfl, rfl, rfl, rfl⟩

/-- Claim C6: immediately after `toggle_zoom` every trail is empty, the
zoom flag is negated, and positions, velocities and the running/paused
state are unchanged. -/
theorem C6_toggle_zoom_clears (sim : PlanetSimulation) :
    (sim.toggle_zoom).zoomed = !sim.zoomed ∧
    ((sim.toggle_zoom).bodies.all fun b => b.trail.isEmpty) = true ∧
    (sim.toggle_zoom).state = sim.state ∧
    (sim.toggle_zoom).config = sim.config ∧
    ((sim.toggle_zoom).bodies.map fun b => (b.x, b.y, b.vx, b.vy)) =
      (sim.bodies.map fun b => (b.x, b.y, b.vx, b.vy)) := by
  refine ⟨rfl, ?_, rfl, rfl, ?_⟩
  · simp [PlanetSimulation.toggle_zoom, PlanetSimulation.clear_trails,
      CelestialBody.clear_trail]
  · simp only [PlanetSimulation.toggle_zoom, PlanetSimulation.clear_trails,
      List.map_map]
    rfl

/-- Claim C7: `update_position` performs semi-implicit Euler: acceleration
is force over mass, the velocity is updated first, and the position update
uses the already-updated velocity; force, mass and trail are unchanged. -/
theorem C7_semi_implicit_euler (b : CelestialBody) (dt : ℝ)
    (h : 0 < b.mass) :
    (b.update_position dt).vx = b.vx + b.force_x / b.mass * dt ∧
    (b.update_position dt).vy = b.vy + b.force_y / b.mass * dt ∧
    (b.update_position dt).x = b.x + (b.update_position dt).vx * dt ∧
    (b.update_position dt).y = b.y + (b.update_position dt).vy * dt ∧
    (b.update_position dt).force_x = b.force_x ∧
    (b.update_position dt).force_y = b.force_y ∧
    (b.update_position dt).mass = b.mass ∧
    (b.update_position dt).trail = b.trail :=
  ⟨rfl, rfl, rfl, rfl, rfl, rfl, rfl, rfl⟩

/-- A concrete body for the C7 witness. -/
noncomputable def c7Body : CelestialBody :=
  { x := 0, y := 0, vx := 3, vy := 0, mass := 2, radius := 1,
    color := (0, 0, 0), name := "w", force_x := 4, force_y := 0 }

/-- Witness for C7 at a concrete body with positive mass. -/
theorem C7_semi_implicit_euler_witness :
    (0:ℝ) < c7Body.mass ∧
    (c7Body.update_position 1).vx = c7Body.vx + c7Body.force_x / c7Body.mass * 1 ∧
    (c7Body.update_position 1).trail = c7Body.trail := by
  have h : (0:ℝ) < c7Body.mass := by norm_num [c7Body]
  have h2 := C7_semi_implicit_euler c7Body 1 h
  exact ⟨h, h2.1, h2.2.2.2.2.2.2.2⟩

/-- A configuration with non-positive G, scales and time step. -/
noncomputable def badConfig : SimulationConfig :=
  { G := -1, SCALE := -1, ZOOM_SCALE := -1, DT := -1 }

/-- Counterexample to claim C9: the source performs no construction-time
validation, so a simulation built from a configuration with non-positive
G, scale and dt is constructed without any error and starts RUNNING with
the full catalog. -/
theorem C9_no_validation_counterexample :
    badConfig.G ≤ 0 ∧ badConfig.SCALE ≤ 0 ∧ badConfig.ZOOM_SCALE ≤ 0 ∧
    badConfig.DT ≤ 0 ∧
    (initSimulation badConfig).state = SimulationState.RUNNING ∧
    (initSimulation badConfig).bodies = solarSystemBodies := by
  refine ⟨?_, ?_, ?_, ?_, rfl, rfl⟩ <;> norm_num [badConfig]

/-- Amended C9: construction never fails and performs no validation at
all: for every configuration, including non-positive G, scale or dt, the
simulation is constructed with the full catalog, zoom off, RUNNING. -/
theorem C9_construction_total (config : SimulationConfig) :
    (initSimulation config).state = SimulationState.RUNNING ∧
    (initSimulation config).bodies = solarSystemBodies ∧
    (initSimulation config).zoomed = false ∧
    (initSimulation config).config = config :=
  ⟨rfl, rfl, rfl, rfl⟩

/-- Claim C10: `add_gravitational_force` modifies at most the receiver's
two accumulated-force components: position, velocity, mass, radius,
color, name and trail of the receiver are unchanged (the argument body is
only read by the source and is untouched). -/
theorem C10_force_frame (self other : CelestialBody) (G : ℝ) :
    (self.add_gravitational_force other G).x = self.x ∧
    (self.add_gravitational_force other G).y = self.y ∧
    (self.add_gravitational_force other G).vx = self.vx ∧
    (self.add_gravitational_force other G).vy = self.vy ∧
    (self.add_gravitational_force other G).mass = self.mass ∧
    (self.add_gravitational_force other G).radius = self.radius ∧
    (self.add_gravitational_force other G).color = self.color ∧
    (self.add_gravitational_force other G).name = self.name ∧
    (self.add_gravitational_force other G).trail = self.trail := by
  simp only [CelestialBody.add_gravitational_force]
  split <;> exact ⟨rfl, rfl, rfl, rfl, rfl, rfl, rfl, rfl, rfl⟩

/-- Helper: `add_gravitational_force` keeps position and mass. -/
theorem add_force_phys (a b : CelestialBody) (G : ℝ) :
    (a.add_gravitational_force b G).x = a.x ∧
    (a.add_gravitational_force b G).y = a.y ∧
    (a.add_gravitational_force b G).mass = a.mass := by
  simp only [CelestialBody.add_gravitational_force]
  split <;> exact ⟨rfl, rfl, rfl⟩

/-- Helper: the force increment written out, when the squared distance is
positive. -/
theorem add_force_delta (a b : CelestialBody) (G : ℝ)
    (h : (b.x - a.x) * (b.x - a.x) + (b.y - a.y) * (b.y - a.y) > 0) :
    (a.add_gravitational_force b G).force_x =
      a.force_x + G * a.mass * b.mass /
        ((b.x - a.x) * (b.x - a.x) + (b.y - a.y) * (b.y - a.y)) * (b.x - a.x) /
        Real.sqrt ((b.x - a.x) * (b.x - a.x) + (b.y - a.y) * (b.y - a.y)) ∧
    (a.add_gravitational_force b G).force_y =
      a.force_y + G * a.mass * b.mass /
        ((b.x - a.x) * (b.x - a.x) + (b.y - a.y) * (b.y - a.y)) * (b.y - a.y) /
        Real.sqrt ((b.x - a.x) * (b.x - a.x) + (b.y - a.y) * (b.y - a.y)) := by
  simp only [CelestialBody.add_gravitational_force]
  rw [if_pos h]
  exact ⟨rfl, rfl⟩

/-- Claim C2: for a pair of bodies at nonzero distance with positive
masses, the contribution one tick's pairwise step adds to A from B and
the contribution then added to B from (the already-updated) A are exactly
opposite, component by component, hence equal in magnitude and opposite
in direction. -/
theorem C2_newton_third_law (a b : CelestialBody) (G : ℝ)
    (hne : ¬ (a.x = b.x ∧ a.y = b.y)) (hma : 0 < a.mass) (hmb : 0 < b.mass) :
    (a.add_gravitational_force b G).force_x - a.force_x =
      -((b.add_gravitational_force (a.add_gravitational_force b G) G).force_x
        - b.force_x) ∧
    (a.add_gravitational_force b G).force_y - a.force_y =
      -((b.add_gravitational_force (a.add_gravitational_force b G) G).force_y
        - b.force_y) := by
  have hd2 : (b.x - a.x) * (b.x - a.x) + (b.y - a.y) * (b.y - a.y) > 0 := by
    rcases not_and_or.mp hne with h | h
    · have h1 : 0 < (b.x - a.x) * (b.x - a.x) :=
        mul_self_pos.mpr (sub_ne_zero.mpr (Ne.symm h))
      have h2 : 0 ≤ (b.y - a.y) * (b.y - a.y) := mul_self_nonneg _
      linarith
    · have h1 : 0 < (b.y - a.y) * (b.y - a.y) :=
        mul_self_pos.mpr (sub_ne_zero.mpr (Ne.symm h))
      have h2 : 0 ≤ (b.x - a.x) * (b.x - a.x) := mul_self_nonneg _
      linarith
  obtain ⟨hx', hy', hm'⟩ := add_force_phys a b G
  have heq : (a.x - b.x) * (a.x - b.x) + (a.y - b.y) * (a.y - b.y) =
      (b.x - a.x) * (b.x - a.x) + (b.y - a.y) * (b.y - a.y) := by ring
  have hd2' : ((a.add_gravitational_force b G).x - b.x) *
        ((a.add_gravitational_force b G).x - b.x) +
      ((a.add_gravitational_force b G).y - b.y) *
        ((a.add_gravitational_force b G).y - b.y) > 0 := by
    rw [hx', hy', heq]; exact hd2
  obtain ⟨e1x, e1y⟩ := add_force_delta a b G hd2
  obtain ⟨e2x, e2y⟩ := add_force_delta b (a.add_gravitational_force b G) G hd2'
  constructor
  · rw [e1x, e2x, hx', hy', hm', heq]
    ring
  · rw [e1y, e2y, hx', hy', hm', heq]
    ring

/-- First body for the C2 witness. -/
noncomputable def c2A : CelestialBody :=
  { x := 0, y := 0, vx := 0, vy := 0, mass := 1, radius := 1,
    color := (0, 0, 0), name := "P" }

/-- Second body for the C2 witness, one metre away. -/
noncomputable def c2B : CelestialBody :=
  { x := 1, y := 0, vx := 0, vy := 0, mass := 2, radius := 1,
    color := (0, 0, 0), name := "Q" }

/-- Witness for C2 at two concrete distinct bodies. -/
theorem C2_newton_third_law_witness :
    (¬ (c2A.x = c2B.x ∧ c2A.y = c2B.y)) ∧ 0 < c2A.mass ∧ 0 < c2B.mass ∧
    ((c2A.add_gravitational_force c2B 1).force_x - c2A.force_x =
      -((c2B.add_gravitational_force (c2A.add_gravitational_force c2B 1) 1).force_x
        - c2B.force_x)) := by
  have h1 : ¬ (c2A.x = c2B.x ∧ c2A.y = c2B.y) := by norm_num [c2A, c2B]
  have h2 : (0:ℝ) < c2A.mass := by norm_num [c2A]
  have h3 : (0:ℝ) < c2B.mass := by norm_num [c2B]
  exact ⟨h1, h2, h3, (C2_newton_third_law c2A c2B 1 h1 h2 h3).1⟩

/-- Modelled from the spec for comparison (claim C8): the spec's projected
coordinate, `round(position * scale) + viewport_dimension / 2` per axis. -/
noncomputable def projectToScreen_claimed
    (b : CelestialBody) (config : SimulationConfig) (zoomed : Bool) : ℤ × ℤ :=
  let current_scale := if zoomed then config.ZOOM_SCALE else config.SCALE
  (round (b.x * current_scale) + config.WIDTH / 2,
   round (b.y * current_scale) + config.HEIGHT / 2)

/-- Configuration for the C8 counterexample: scale 7/10, default viewport. -/
noncomputable def c8Config : SimulationConfig := { SCALE := 7 / 10 }

/-- Body for the C8 counterexample, at x = 1. -/
noncomputable def c8Body : CelestialBody :=
  { x := 1, y := 0, vx := 0, vy := 0, mass := 1, radius := 1,
    color := (0, 0, 0), name := "E" }

/-- Counterexample to claim C8: at x = 1 with scale 7/10 the source pushes
`int(1 * 0.7 + 800 // 2) = 400`, while the spec's formula
`round(1 * 0.7) + 800 / 2` gives 401: the code truncates the sum, it does
not round the scaled position. -/
theorem C8_projection_counterexample :
    c8Body.projectToScreen c8Config false = (400, 300) ∧
    projectToScreen_claimed c8Body c8Config false = (401, 300) ∧
    ((400:ℤ), (300:ℤ)) ≠ ((401:ℤ), (300:ℤ)) := by
  have h800 : ((800:ℤ).fdiv 2) = 400 := by decide
  have h600 : ((600:ℤ).fdiv 2) = 300 := by decide
  refine ⟨?_, ?_, by decide⟩
  · simp only [CelestialBody.projectToScreen, c8Body, c8Config, pyint,
      h800, h600]
    norm_num
  · simp only [projectToScreen_claimed, c8Body, c8Config]
    norm_num [round_eq]

/-- Amended C8: the coordinate pushed to the trail is, per axis, the
truncation toward zero of `position * scale + viewport_dimension // 2`
(Python `int()` of the whole sum, not a rounding of the scaled position),
and the trail push leaves the body's physical state unchanged. -/
theorem C8_projection_truncates
    (b : CelestialBody) (config : SimulationConfig) (zoomed : Bool) :
    (b.update_trail config zoomed).trail =
      pushTrailPoint config.TRAIL_LENGTH b.trail
        (pyint (b.x * (if zoomed then config.ZOOM_SCALE else config.SCALE) +
            ((config.WIDTH.fdiv 2 : ℤ) : ℝ)),
         pyint (b.y * (if zoomed then config.ZOOM_SCALE else config.SCALE) +
            ((config.HEIGHT.fdiv 2 : ℤ) : ℝ))) ∧
    (b.update_trail config zoomed).x = b.x ∧
    (b.update_trail config zoomed).y = b.y ∧
    (b.update_trail config zoomed).vx = b.vx ∧
    (b.update_trail config zoomed).vy = b.vy ∧
    (b.update_trail config zoomed).mass = b.mass ∧
    (b.update_trail config zoomed).force_x = b.force_x ∧
    (b.update_trail config zoomed).force_y = b.force_y :=
  ⟨rfl, rfl, rfl, rfl, rfl, rfl, rfl, rfl⟩

/-- All fields of a body except the two force-accumulator components. -/
def shadow (b : CelestialBody) :
    ℝ × ℝ × ℝ × ℝ × ℝ × ℤ × (ℤ × ℤ × ℤ) × String × List (ℤ × ℤ) :=
  (b.x, b.y, b.vx, b.vy, b.mass, b.radius, b.color, b.name, b.trail)

/-- Helper: `add_gravitational_force` changes nothing outside the force
accumulator. -/
theorem shadow_add_force (a b : CelestialBody) (G : ℝ) :
    shadow (a.add_gravitational_force b G) = shadow a := by
  simp only [CelestialBody.add_gravitational_force]
  split <;> rfl

/-- Helper: writing back the element already stored at an index is a
no-op. -/
theorem set_of_get {α : Type _} : ∀ (l : List α) (i : ℕ) (a : α),
    l.get? i = some a → l.set i a = l := by
  intro l
  induction l with
  | nil => intro i a h; simp at h
  | cons x xs ih =>
    intro i a h
    cases i with
    | zero =>
      simp only [List.get?_cons_zero, Option.some.injEq] at h
      simp [h]
    | succ n =>
      simp only [List.get?_cons_succ] at h
      simp [ih n a h]

/-- Helper: one pairwise interaction leaves everything but forces
unchanged in every slot. -/
theorem forcePair_shadow (G : ℝ) (bs : List CelestialBody) (i j : ℕ) :
    (forcePair G bs i j).map shadow = bs.map shadow := by
  unfold forcePair
  cases h1 : bs.get? i with
  | none => rfl
  | some body1 =>
    cases h2 : bs.get? j with
    | none => rfl
    | some body2 =>
      simp only
      rw [List.map_set, List.map_set, shadow_add_force, shadow_add_force]
      have g1 : (bs.map shadow).get? i = some (shadow body1) := by
        rw [List.get?_map, h1]; rfl
      have g2 : (bs.map shadow).get? j = some (shadow body2) := by
        rw [List.get?_map, h2]; rfl
      rw [set_of_get _ i _ g1, set_of_get _ j _ g2]

/-- Helper: a predicate preserved by each step is preserved by `foldl`. -/
theorem foldl_inv {α β : Type _} (P : β → Prop) (f : β → α → β)
    (hf : ∀ bb aa, P bb → P (f bb aa)) :
    ∀ (l : List α) (bb : β), P bb → P (l.foldl f bb) := by
  intro l
  induction l with
  | nil => intro bb h; exact h
  | cons a l ih => intro bb h; exact ih _ (hf bb a h)

/-- Helper: the whole pairwise accumulation leaves everything but forces
unchanged in every slot. -/
theorem accumulate_shadow (G : ℝ) (bs : List CelestialBody) :
    (accumulate_forces G bs).map shadow = bs.map shadow := by
  unfold accumulate_forces
  refine foldl_inv (fun acc => acc.map shadow = bs.map shadow) _ ?_ _ bs rfl
  intro acc i hacc
  refine foldl_inv (fun acc2 => acc2.map shadow = bs.map shadow) _ ?_ _ acc hacc
  intro acc2 j h2
  rw [forcePair_shadow, h2]

/-- Helper: the pairwise accumulation preserves every trail. -/
theorem accumulate_trail_map (G : ℝ) (bs : List CelestialBody) :
    (accumulate_forces G bs).map (fun b => b.trail) =
      bs.map (fun b => b.trail) := by
  have h := accumulate_shadow G bs
  have hcomp : ∀ (l : List CelestialBody),
      l.map (fun b => b.trail) =
        (l.map shadow).map (fun s => s.2.2.2.2.2.2.2.2) := by
    intro l; rw [List.map_map]; rfl
  rw [hcomp, hcomp, h]

/-- Helper: the bounded push keeps the trail within the bound. -/
theorem pushTrailPoint_length (L : ℕ) (t : List (ℤ × ℤ)) (p : ℤ × ℤ)
    (h : t.length ≤ L) : (pushTrailPoint L t p).length ≤ L := by
  simp only [pushTrailPoint]
  split
  · rename_i hc
    simp only [List.length_drop, List.length_append, List.length_cons,
      List.length_nil] at *
    omega
  · rename_i hc
    simp only [List.length_append, List.length_cons, List.length_nil] at *
    omega

/-- Helper: folding the bounded push over a point sequence keeps exactly
the most recent points, in insertion order. -/
theorem trail_foldl_fifo (L : ℕ) :
    ∀ (ps : List (ℤ × ℤ)) (t : List (ℤ × ℤ)), t.length ≤ L →
      ps.foldl (pushTrailPoint L) t =
        (t ++ ps).drop (t.length + ps.length - L) := by
  intro ps
  induction ps with
  | nil =>
    intro t h
    simp [Nat.sub_eq_zero_of_le h]
  | cons p ps ih =>
    intro t h
    rw [List.foldl_cons]
    simp only [pushTrailPoint]
    split
    · rename_i hc
      simp only [List.length_append, List.length_cons, List.length_nil] at hc
      have hlen : ((t ++ [p]).drop 1).length ≤ L := by
        simp only [List.length_drop, List.length_append, List.length_cons,
          List.length_nil]
        omega
      rw [ih _ hlen]
      have h1A : 1 ≤ (t ++ [p]).length := by simp
      calc ((t ++ [p]).drop 1 ++ ps).drop
              (((t ++ [p]).drop 1).length + ps.length - L)
          = ((t ++ [p]).drop 1 ++ ps).drop ps.length := by
            congr 1
            simp only [List.length_drop, List.length_append, List.length_cons,
              List.length_nil]
            omega
        _ = (((t ++ [p]) ++ ps).drop 1).drop ps.length := by
            rw [List.drop_append_of_le_length h1A]
        _ = ((t ++ [p]) ++ ps).drop (1 + ps.length) := by
            rw [List.drop_drop]
        _ = (t ++ p :: ps).drop (t.length + (p :: ps).length - L) := by
            rw [List.append_assoc, List.singleton_append]
            congr 1
            simp only [List.length_cons]
            omega
    · rename_i hc
      simp only [List.length_append, List.length_cons, List.length_nil] at hc
      have hle : (t ++ [p]).length ≤ L := by
        simp only [List.length_append, List.length_cons, List.length_nil]
        omega
      rw [ih _ hle]
      rw [List.append_assoc, List.singleton_append]
      congr 1
      simp only [List.length_append, List.length_cons, List.length_nil]
      omega

/-- Helper: `update_physics` does not change the configuration. -/
theorem update_physics_config (sim : PlanetSimulation) :
    (sim.update_physics).config = sim.config := by
  unfold PlanetSimulation.update_physics
  split <;> rfl

/-- Helper: the bodies produced by a running tick, written out. -/
theorem update_physics_bodies (sim : PlanetSimulation)
    (h : ¬ sim.state = SimulationState.PAUSED) :
    (sim.update_physics).bodies =
      (accumulate_forces sim.config.G
          (sim.bodies.map CelestialBody.reset_forces)).map
        (fun b => (b.update_position sim.config.DT).update_trail
          sim.config sim.zoomed) := by
  unfold PlanetSimulation.update_physics
  rw [if_neg h]

/-- Helper: one tick preserves the trail bound. -/
theorem update_physics_trail_bound (sim : PlanetSimulation)
    (h : ∀ b ∈ sim.bodies, b.trail.length ≤ sim.config.TRAIL_LENGTH) :
    ∀ b ∈ (sim.update_physics).bodies,
      b.trail.length ≤ sim.config.TRAIL_LENGTH := by
  by_cases hp : sim.state = SimulationState.PAUSED
  · have hfix : sim.update_physics = sim := by
      unfold PlanetSimulation.update_physics
      rw [if_pos hp]
    rw [hfix]
    exact h
  · rw [update_physics_bodies sim hp]
    intro b hb
    rw [List.mem_map] at hb
    obtain ⟨b2, hb2, rfl⟩ := hb
    have htr : ((b2.update_position sim.config.DT).update_trail
          sim.config sim.zoomed).trail =
        pushTrailPoint sim.config.TRAIL_LENGTH b2.trail
          ((b2.update_position sim.config.DT).projectToScreen
            sim.config sim.zoomed) := rfl
    rw [htr]
    apply pushTrailPoint_length
    have hmem : b2.trail ∈
        (accumulate_forces sim.config.G
          (sim.bodies.map CelestialBody.reset_forces)).map
          (fun bb => bb.trail) :=
      List.mem_map_of_mem _ hb2
    rw [accumulate_trail_map, List.map_map] at hmem
    have hco : ((fun bb : CelestialBody => bb.trail) ∘
        CelestialBody.reset_forces) = fun bb : CelestialBody => bb.trail := rfl
    rw [hco, List.mem_map] at hmem
    obtain ⟨b0, hb0, heq0⟩ := hmem
    rw [← heq0]
    exact h b0 hb0

/-- Helper: any number of ticks preserves the trail bound. -/
theorem iterate_trail_bound (n : ℕ) :
    ∀ (sim : PlanetSimulation),
      (∀ b ∈ sim.bodies, b.trail.length ≤ sim.config.TRAIL_LENGTH) →
      ∀ b ∈ (PlanetSimulation.update_physics^[n] sim).bodies,
        b.trail.length ≤ sim.config.TRAIL_LENGTH := by
  induction n with
  | zero => intro sim h; exact h
  | succ n ih =>
    intro sim h
    rw [Function.iterate_succ_apply]
    have h1 := update_physics_trail_bound sim h
    have hc := update_physics_config sim
    have h2 := ih sim.update_physics (by rw [hc]; exact h1)
    rw [hc] at h2
    exact h2

/-- Helper: the catalog bodies all start with an empty trail. -/
theorem solarSystem_trails : ∀ b ∈ solarSystemBodies, b.trail = [] := by
  intro b hb
  simp only [solarSystemBodies, List.mem_map] at hb
  obtain ⟨row, hrow, rfl⟩ := hb
  rfl

/-- Claim C3: from the initial simulation, after any number of ticks no
trail exceeds the configured TRAIL_LENGTH; and the bounded push has FIFO
content semantics: folding it over any pushed-point sequence keeps
exactly the most recent points in insertion order (the oldest are the
ones dropped). -/
theorem C3_trail_bound_fifo :
    (∀ (config : SimulationConfig) (n : ℕ),
      ((PlanetSimulation.update_physics^[n] (initSimulation config)).bodies.all
        fun b => decide (b.trail.length ≤ config.TRAIL_LENGTH)) = true) ∧
    (∀ (L : ℕ) (ps : List (ℤ × ℤ)),
      ps.foldl (pushTrailPoint L) [] = ps.drop (ps.length - L)) := by
  constructor
  · intro config n
    rw [List.all_eq_true]
    intro b hb
    rw [decide_eq_true_eq]
    have hinit : ∀ b0 ∈ (initSimulation config).bodies,
        b0.trail.length ≤ (initSimulation config).config.TRAIL_LENGTH := by
      intro b0 hb0
      rw [solarSystem_trails b0 hb0]
      simp
    exact iterate_trail_bound n (initSimulation config) hinit b hb
  · intro L ps
    have h := trail_foldl_fifo L ps [] (by simp)
    simpa using h

end SolarSim
